import Mathlib

/-!
Verification of the cancel-booking handler
(`src/backend/booking/src/cancel-booking/cancel.py`).

The handler logic (`cancel_booking`, `lambda_handler`,
`BookingCancellationException`) is embedded directly from the Python
source.  The external Record Store (a DynamoDB table reached through
`table.update_item`) is not part of the repository's source, so its
conditional-update semantics is modelled from the specification.
-/

/-- A JSON-ish value, as may appear in an inbound event field.  The handler
itself never inspects the type of `event["bookingId"]`; it only tests the
key's presence. -/
inductive Value where
  | vStr : String → Value
  | vNum : Int → Value
  | vNull : Value
  deriving DecidableEq, Repr

/-- An inbound event from the Orchestrator: a dictionary of field names to
values (a Python `dict`). -/
abbrev Event := List (String × Value)

/-- A Booking Record held by the Record Store: identified by `id`, holding a
`status` field. -/
structure Record where
  id : String
  status : String
  deriving DecidableEq, Repr

/-- The Record Store's contents: the set of booking records, as a list. -/
abbrev Store := List Record

/-- An error raised by the store client (`botocore.exceptions.ClientError`):
either the conditional update's precondition failed, the request was
malformed, or a transient store error occurred. -/
inductive ClientError where
  | conditionalCheckFailed : Value → ClientError
  | validationError : Value → ClientError
  | transientError : String → ClientError
  deriving DecidableEq, Repr

/-- The store's response to a successful update with `ReturnValues =
UPDATED_NEW`: the updated attributes. -/
structure UpdateResult where
  attributes : List (String × String)
  deriving DecidableEq, Repr

/-- The `details` payload carried by a `BookingCancellationException`:
either the empty dict `\x7b\x7d` (the constructor's default), an underlying
store `ClientError`, or a wrapped exception (message, status code and
details of an inner `BookingCancellationException`). -/
inductive BCDetails where
  | emptyDict : BCDetails
  | clientError : ClientError → BCDetails
  | wrapped : String → Nat → BCDetails → BCDetails
  deriving DecidableEq, Repr

/-- `BookingCancellationException`: the domain error raised on cancellation
failure, with fields `message`, `status_code` and `details`. -/
structure BookingCancellationException where
  message : String
  status_code : Nat
  details : BCDetails
  deriving DecidableEq, Repr

/-- Python `x or d` for an optional string argument: `None` and the empty
string (both falsy) yield the default. -/
def pyOrStr (x : Option String) (d : String) : String :=
  match x with
  | none => d
  | some s => if s = "" then d else s

/-- Python `x or d` for an optional numeric argument: `None` and `0` (both
falsy) yield the default. -/
def pyOrNat (x : Option Nat) (d : Nat) : Nat :=
  match x with
  | none => d
  | some n => if n = 0 then d else n

/-- Python `details or \x7b\x7d`: `None` yields the empty dict; any supplied
details payload passes through (a falsy empty dict maps to the empty dict,
which is the identity on it). -/
def pyOrDetails (x : Option BCDetails) : BCDetails :=
  match x with
  | none => BCDetails.emptyDict
  | some d => d

/-- The `BookingCancellationException.__init__` constructor:
`message = message or "Booking cancellation failed"`,
`status_code = status_code or 500`, `details = details or \x7b\x7d`. -/
def BookingCancellationException.make (message : Option String)
    (status_code : Option Nat) (details : Option BCDetails) :
    BookingCancellationException :=
  { message := pyOrStr message "Booking cancellation failed"
    status_code := pyOrNat status_code 500
    details := pyOrDetails details }

/-- An inner `BookingCancellationException` used as a `details` payload
(Python simply stores the exception object). -/
def BookingCancellationException.toDetails
    (e : BookingCancellationException) : BCDetails :=
  BCDetails.wrapped e.message e.status_code e.details

/-- A value attached to the tracing sink as metadata. -/
inductive MetaValue where
  | updateResult : UpdateResult → MetaValue
  | exc : BookingCancellationException → MetaValue
  deriving DecidableEq, Repr

/-- An observable action of one invocation: a store update call
(`table.update_item`), a tracing annot (`tracer.put_annotation`), or
tracing metadata (`tracer.put_metadata`). -/
inductive TraceEvent where
  | storeUpdate : Value → String → TraceEvent
  | putAnnot : String → String → TraceEvent
  | putMetadata : Value → MetaValue → TraceEvent
  deriving DecidableEq, Repr

/-- Number of store update calls recorded in a trace. -/
def storeCallCount (tr : List TraceEvent) : Nat :=
  (tr.filter fun e =>
    match e with
    | TraceEvent.storeUpdate _ _ => true
    | _ => false).length

/-- Modelled from the spec: the external Record Store's conditional
update-if-exists operation (the DynamoDB `table.update_item` call with
`Key = id`, `ConditionExpression "id = :idVal"`,
`UpdateExpression "SET #STATUS = :cancelled"`,
`ReturnValues = UPDATED_NEW`), which is not part of the repository source.
Per the spec it takes a record identifier and a target status value and
returns either the updated attributes or a precondition failure; the
precondition is that a record with the given id exists; it never creates a
record.  A non-string key cannot match a record identifier (string) and is
rejected by the store. -/
def updateItem (store : Store) (key : Value) (newStatus : String) :
    Except ClientError (Store × UpdateResult) :=
  match key with
  | Value.vStr s =>
      if store.any (fun r => r.id == s) then
        Except.ok
          (store.map (fun r =>
              if r.id == s then { r with status := newStatus } else r),
           ⟨[("status", newStatus)]⟩)
      else
        Except.error (ClientError.conditionalCheckFailed key)
  | k => Except.error (ClientError.validationError k)

/-- The body of `cancel_booking`, abstracted over the store's response
`resp` to the single `table.update_item` call: on success, attach the
result as tracing metadata and return `True`; on `ClientError err`, raise
`BookingCancellationException(details=err)`. -/
def cancel_booking_with (resp : Except ClientError (Store × UpdateResult))
    (store : Store) (booking_id : Value) :
    Except BookingCancellationException Bool × Store × List TraceEvent :=
  match resp with
  | Except.ok (store2, ret) =>
      (Except.ok true, store2,
       [TraceEvent.storeUpdate booking_id "CANCELLED",
        TraceEvent.putMetadata booking_id (MetaValue.updateResult ret)])
  | Except.error err =>
      (Except.error
         (BookingCancellationException.make none none
           (some (BCDetails.clientError err))),
       store,
       [TraceEvent.storeUpdate booking_id "CANCELLED"])

/-- `cancel_booking(booking_id)`: one conditional update against the Record
Store, translating `ClientError` into `BookingCancellationException`. -/
def cancel_booking (store : Store) (booking_id : Value) :
    Except BookingCancellationException Bool × Store × List TraceEvent :=
  cancel_booking_with (updateItem store booking_id "CANCELLED") store
    booking_id

/-- An error raised by `lambda_handler` to the Orchestrator: either the
input-validation `ValueError("Invalid booking ID")` or a
`BookingCancellationException`. -/
inductive HandlerError where
  | valueError : String → HandlerError
  | cancellation : BookingCancellationException → HandlerError
  deriving DecidableEq, Repr

/-- `True` exactly when the error is the input-validation kind: the two
error kinds are distinguishable by their exception type. -/
def HandlerError.isValidation : HandlerError → Bool
  | HandlerError.valueError _ => true
  | HandlerError.cancellation _ => false

/-- The error's human-readable message. -/
def HandlerError.msg : HandlerError → String
  | HandlerError.valueError m => m
  | HandlerError.cancellation e => e.message

/-- The error's status code, when it carries one: a
`BookingCancellationException` has a `status_code` field, a `ValueError`
does not. -/
def HandlerError.statusCodeOpt : HandlerError → Option Nat
  | HandlerError.valueError _ => none
  | HandlerError.cancellation e => some e.status_code

/-- The error's details payload, when it carries one. -/
def HandlerError.detailsOpt : HandlerError → Option BCDetails
  | HandlerError.valueError _ => none
  | HandlerError.cancellation e => some e.details

/-- The body of `lambda_handler`, abstracted over the store's response (an
oracle mapping the booking id of the single update call to its outcome):
if `"bookingId" not in event`, raise `ValueError("Invalid booking ID")`
with no store call; otherwise call `cancel_booking`; on success annotate
`BookingStatus = CANCELLED` and return its result; on
`BookingCancellationException err`, annotate `BookingStatus = ERROR`,
attach `err` as metadata under `cancel_booking_error`, and raise
`BookingCancellationException(details=err)`. -/
def lambda_handler_with
    (oracle : Value → Except ClientError (Store × UpdateResult))
    (store : Store) (event : Event) :
    Except HandlerError Bool × Store × List TraceEvent :=
  match event.lookup "bookingId" with
  | none =>
      (Except.error (HandlerError.valueError "Invalid booking ID"), store, [])
  | some booking_id =>
      match cancel_booking_with (oracle booking_id) store booking_id with
      | (Except.ok ret, store2, tr) =>
          (Except.ok ret, store2,
           tr ++ [TraceEvent.putAnnot "BookingStatus" "CANCELLED"])
      | (Except.error err, store2, tr) =>
          (Except.error
             (HandlerError.cancellation
               (BookingCancellationException.make none none
                 (some err.toDetails))),
           store2,
           tr ++ [TraceEvent.putAnnot "BookingStatus" "ERROR",
                  TraceEvent.putMetadata (Value.vStr "cancel_booking_error")
                    (MetaValue.exc err)])

/-- `lambda_handler(event, context)` with the Record Store's modelled
semantics supplying the response to the single update call. -/
def lambda_handler (store : Store) (event : Event) :
    Except HandlerError Bool × Store × List TraceEvent :=
  lambda_handler_with (fun bid => updateItem store bid "CANCELLED") store
    event

example :
    (lambda_handler [⟨"abc123", "CONFIRMED"⟩]
      [("bookingId", Value.vStr "abc123")]).1 = Except.ok true := rfl

example :
    (lambda_handler [⟨"abc123", "CONFIRMED"⟩]
      [("bookingId", Value.vStr "abc123")]).2.1 =
    [⟨"abc123", "CANCELLED"⟩] := by
  decide

example :
    (lambda_handler [] []).1 =
      Except.error (HandlerError.valueError "Invalid booking ID") := rfl

/-! ### Helper lemmas -/

/-- Computed form of `cancel_booking` when a record with the given id
exists. -/
lemma cancel_booking_ok (store : Store) (bid : String)
    (hex : store.any (fun r => r.id == bid) = true) :
    cancel_booking store (Value.vStr bid) =
      (Except.ok true,
       store.map (fun r =>
         if r.id == bid then { r with status := "CANCELLED" } else r),
       [TraceEvent.storeUpdate (Value.vStr bid) "CANCELLED",
        TraceEvent.putMetadata (Value.vStr bid)
          (MetaValue.updateResult ⟨[("status", "CANCELLED")]⟩)]) := by
  simp [cancel_booking, cancel_booking_with, updateItem, hex]

/-- A record of the post-cancellation store that carries the cancelled id
has status CANCELLED. -/
lemma mem_cancelled_map_status (store : Store) (bid : String) (r : Record)
    (hr : r ∈ store.map (fun r =>
        if r.id == bid then { r with status := "CANCELLED" } else r))
    (hid : r.id = bid) : r.status = "CANCELLED" := by
  rcases List.mem_map.mp hr with ⟨r0, -, heq⟩
  subst heq
  by_cases h : r0.id = bid
  · simp [h]
  · simp [beq_eq_false_iff_ne.mpr h] at hid
    exact absurd hid h

/-! ### Claim theorems -/

/-- C2: for every event in which the field `bookingId` is absent,
`lambda_handler` fails with the input-validation error
`ValueError("Invalid booking ID")` — a kind distinct from any
`BookingCancellationException` — and no Record Store update call is made,
whatever the store would have answered. -/
theorem missing_bookingId_invalid_input
    (oracle : Value → Except ClientError (Store × UpdateResult))
    (store : Store) (event : Event)
    (hev : event.lookup "bookingId" = none) :
    (lambda_handler_with oracle store event).1 =
        Except.error (HandlerError.valueError "Invalid booking ID")
    ∧ (∀ e, HandlerError.valueError "Invalid booking ID" ≠
          HandlerError.cancellation e)
    ∧ storeCallCount (lambda_handler_with oracle store event).2.2 = 0 := by
  refine ⟨?_, fun e => by simp, ?_⟩ <;>
    simp [lambda_handler_with, hev, storeCallCount]

/-- Witness for C2 at the concrete empty event. -/
theorem missing_bookingId_invalid_input_witness :
    (([] : Event).lookup "bookingId" = none)
    ∧ ((lambda_handler_with
          (fun _ => Except.error (ClientError.transientError "boom")) []
          []).1 =
        Except.error (HandlerError.valueError "Invalid booking ID")
      ∧ (∀ e, HandlerError.valueError "Invalid booking ID" ≠
            HandlerError.cancellation e)
      ∧ storeCallCount (lambda_handler_with
          (fun _ => Except.error (ClientError.transientError "boom")) []
          []).2.2 = 0) :=
  ⟨rfl, missing_bookingId_invalid_input _ [] [] rfl⟩

/-- C3: for every booking identifier with no record in the Record Store,
`cancel_booking` fails with a `CancellationFailed` error (the
`BookingCancellationException` wrapping the store's precondition failure)
and the store is unchanged, so in particular no record is created. -/
theorem cancel_nonexistent_fails (store : Store) (bid : String)
    (hex : store.any (fun r => r.id == bid) = false) :
    (cancel_booking store (Value.vStr bid)).1 =
        Except.error
          (BookingCancellationException.make none none
            (some (BCDetails.clientError
              (ClientError.conditionalCheckFailed (Value.vStr bid)))))
    ∧ (cancel_booking store (Value.vStr bid)).2.1 = store := by
  constructor <;> simp [cancel_booking, cancel_booking_with, updateItem, hex]

/-- Witness for C3 at a concrete store not containing the id. -/
theorem cancel_nonexistent_fails_witness :
    (([⟨"abc123", "CONFIRMED"⟩] : Store).any
        (fun r => r.id == "ghost") = false)
    ∧ ((cancel_booking [⟨"abc123", "CONFIRMED"⟩] (Value.vStr "ghost")).1 =
        Except.error
          (BookingCancellationException.make none none
            (some (BCDetails.clientError
              (ClientError.conditionalCheckFailed (Value.vStr "ghost")))))
      ∧ (cancel_booking [⟨"abc123", "CONFIRMED"⟩]
          (Value.vStr "ghost")).2.1 = [⟨"abc123", "CONFIRMED"⟩]) :=
  ⟨by decide, cancel_nonexistent_fails _ _ (by decide)⟩

/-- C5: whenever the Record Store rejects the conditional update — with
any `ClientError`, precondition failure or transient — `cancel_booking`
fails with a `BookingCancellationException` whose message is the default
"Booking cancellation failed", whose status code is the default 500, and
whose details payload is the underlying store error. -/
theorem store_rejection_error_shape (store : Store) (bid : Value)
    (err : ClientError) :
    (cancel_booking_with (Except.error err) store bid).1 =
      Except.error
        ⟨"Booking cancellation failed", 500, BCDetails.clientError err⟩ :=
  rfl

/-- C1: for every booking identifier with a record in the Record Store,
`cancel_booking` returns `true` and the record's status becomes CANCELLED;
correspondingly `lambda_handler` on an event carrying that bookingId
returns `true` and leaves the record with status CANCELLED. -/
theorem cancel_existing_succeeds (store : Store) (bid : String)
    (event : Event)
    (hex : store.any (fun r => r.id == bid) = true)
    (hev : event.lookup "bookingId" = some (Value.vStr bid)) :
    ((cancel_booking store (Value.vStr bid)).1 = Except.ok true
      ∧ ∀ r ∈ (cancel_booking store (Value.vStr bid)).2.1,
          r.id = bid → r.status = "CANCELLED")
    ∧ ((lambda_handler store event).1 = Except.ok true
      ∧ ∀ r ∈ (lambda_handler store event).2.1,
          r.id = bid → r.status = "CANCELLED") := by
  have hupd : updateItem store (Value.vStr bid) "CANCELLED" =
      Except.ok (store.map (fun r =>
          if r.id == bid then { r with status := "CANCELLED" } else r),
        ⟨[("status", "CANCELLED")]⟩) := by
    simp [updateItem, hex]
  refine ⟨⟨?_, ?_⟩, ?_, ?_⟩
  · rw [cancel_booking_ok store bid hex]
  · rw [cancel_booking_ok store bid hex]
    intro r hr hid
    exact mem_cancelled_map_status store bid r hr hid
  · simp [lambda_handler, lambda_handler_with, hev, hupd, cancel_booking_with]
  · intro r hr hid
    refine mem_cancelled_map_status store bid r ?_ hid
    simpa [lambda_handler, lambda_handler_with, hev, hupd,
      cancel_booking_with] using hr

/-- Witness for C1 at the spec's concrete scenario. -/
theorem cancel_existing_succeeds_witness :
    (([⟨"abc123", "CONFIRMED"⟩] : Store).any
        (fun r => r.id == "abc123") = true)
    ∧ (([("bookingId", Value.vStr "abc123")] : Event).lookup "bookingId" =
        some (Value.vStr "abc123"))
    ∧ (((cancel_booking [⟨"abc123", "CONFIRMED"⟩]
          (Value.vStr "abc123")).1 = Except.ok true
        ∧ ∀ r ∈ (cancel_booking [⟨"abc123", "CONFIRMED"⟩]
            (Value.vStr "abc123")).2.1,
            r.id = "abc123" → r.status = "CANCELLED")
      ∧ ((lambda_handler [⟨"abc123", "CONFIRMED"⟩]
            [("bookingId", Value.vStr "abc123")]).1 = Except.ok true
        ∧ ∀ r ∈ (lambda_handler [⟨"abc123", "CONFIRMED"⟩]
            [("bookingId", Value.vStr "abc123")]).2.1,
            r.id = "abc123" → r.status = "CANCELLED")) :=
  ⟨by decide, by decide,
    cancel_existing_succeeds _ _ _ (by decide) (by decide)⟩

/-- C4: whenever the inner `cancel_booking` fails with a
`BookingCancellationException`, `lambda_handler` records the tracing
annot `BookingStatus = ERROR`, attaches the original error as tracing
metadata under `cancel_booking_error`, and re-raises a
`BookingCancellationException` wrapping the original error's details to
the Orchestrator. -/
theorem handler_error_path_tracing
    (oracle : Value → Except ClientError (Store × UpdateResult))
    (store : Store) (event : Event) (bid : Value) (err : ClientError)
    (hev : event.lookup "bookingId" = some bid)
    (ho : oracle bid = Except.error err) :
    TraceEvent.putAnnot "BookingStatus" "ERROR" ∈
        (lambda_handler_with oracle store event).2.2
    ∧ TraceEvent.putMetadata (Value.vStr "cancel_booking_error")
        (MetaValue.exc (BookingCancellationException.make none none
          (some (BCDetails.clientError err)))) ∈
        (lambda_handler_with oracle store event).2.2
    ∧ (lambda_handler_with oracle store event).1 =
        Except.error (HandlerError.cancellation
          (BookingCancellationException.make none none
            (some (BookingCancellationException.toDetails
              (BookingCancellationException.make none none
                (some (BCDetails.clientError err))))))) := by
  refine ⟨?_, ?_, ?_⟩ <;>
    simp [lambda_handler_with, hev, ho, cancel_booking_with]

/-- Witness for C4 at a concrete failing store call. -/
theorem handler_error_path_tracing_witness :
    (([("bookingId", Value.vStr "b1")] : Event).lookup "bookingId" =
        some (Value.vStr "b1"))
    ∧ ((fun _ : Value =>
          (Except.error (ClientError.transientError "down") :
            Except ClientError (Store × UpdateResult))) (Value.vStr "b1") =
        Except.error (ClientError.transientError "down"))
    ∧ (TraceEvent.putAnnot "BookingStatus" "ERROR" ∈
        (lambda_handler_with
          (fun _ => Except.error (ClientError.transientError "down")) []
          [("bookingId", Value.vStr "b1")]).2.2
      ∧ TraceEvent.putMetadata (Value.vStr "cancel_booking_error")
          (MetaValue.exc (BookingCancellationException.make none none
            (some (BCDetails.clientError
              (ClientError.transientError "down"))))) ∈
          (lambda_handler_with
            (fun _ => Except.error (ClientError.transientError "down")) []
            [("bookingId", Value.vStr "b1")]).2.2
      ∧ (lambda_handler_with
            (fun _ => Except.error (ClientError.transientError "down")) []
            [("bookingId", Value.vStr "b1")]).1 =
          Except.error (HandlerError.cancellation
            (BookingCancellationException.make none none
              (some (BookingCancellationException.toDetails
                (BookingCancellationException.make none none
                  (some (BCDetails.clientError
                    (ClientError.transientError "down"))))))))) :=
  ⟨by decide, rfl,
    handler_error_path_tracing
      (fun _ => Except.error (ClientError.transientError "down")) []
      [("bookingId", Value.vStr "b1")] (Value.vStr "b1")
      (ClientError.transientError "down") (by decide) rfl⟩

/-- C7: repeat-cancellation idempotence — after a successful
`cancel_booking`, a second `cancel_booking` on the resulting store also
returns `true`, since the conditional update's precondition checks only
that a record with the id exists, not its prior status. -/
theorem cancel_idempotent (store : Store) (bid : String)
    (h : (cancel_booking store (Value.vStr bid)).1 = Except.ok true) :
    (cancel_booking (cancel_booking store (Value.vStr bid)).2.1
        (Value.vStr bid)).1 = Except.ok true := by
  by_cases hex : store.any (fun r => r.id == bid) = true
  · have hex2 : (store.map (fun r =>
        if r.id == bid then { r with status := "CANCELLED" } else r)).any
        (fun r => r.id == bid) = true := by
      rw [List.any_map]
      have hcomp : ((fun r : Record => r.id == bid) ∘ (fun r : Record =>
          if r.id == bid then { r with status := "CANCELLED" } else r)) =
          (fun r : Record => r.id == bid) := by
        funext r
        by_cases hc : r.id = bid <;> simp [hc]
      rw [hcomp]
      exact hex
    have h2 : (cancel_booking store (Value.vStr bid)).2.1 =
        store.map (fun r =>
          if r.id == bid then { r with status := "CANCELLED" } else r) := by
      rw [cancel_booking_ok store bid hex]
    rw [h2, cancel_booking_ok _ bid hex2]
  · exfalso
    rw [Bool.not_eq_true] at hex
    simp [cancel_booking, cancel_booking_with, updateItem, hex] at h

/-- Witness for C7: cancelling an already-cancelled booking. -/
theorem cancel_idempotent_witness :
    ((cancel_booking [⟨"abc123", "CONFIRMED"⟩] (Value.vStr "abc123")).1 =
        Except.ok true)
    ∧ ((cancel_booking
          (cancel_booking [⟨"abc123", "CONFIRMED"⟩]
            (Value.vStr "abc123")).2.1 (Value.vStr "abc123")).1 =
        Except.ok true) :=
  ⟨rfl, cancel_idempotent _ _ rfl⟩

/-- C8: for every invocation of `lambda_handler` on an event containing a
`bookingId`, exactly one Record Store update call is made, whether the
call succeeds or fails — no retry, no loop, no batching. -/
theorem exactly_one_store_call
    (oracle : Value → Except ClientError (Store × UpdateResult))
    (store : Store) (event : Event) (bid : Value)
    (hev : event.lookup "bookingId" = some bid) :
    storeCallCount (lambda_handler_with oracle store event).2.2 = 1 := by
  rcases ho : oracle bid with err | p
  · simp [lambda_handler_with, hev, ho, cancel_booking_with, storeCallCount]
  · obtain ⟨store2, ret⟩ := p
    simp [lambda_handler_with, hev, ho, cancel_booking_with, storeCallCount]

/-- Witness for C8, one on a failing and one on a succeeding store call
folded into a single concrete instance. -/
theorem exactly_one_store_call_witness :
    (([("bookingId", Value.vStr "b2")] : Event).lookup "bookingId" =
        some (Value.vStr "b2"))
    ∧ storeCallCount (lambda_handler_with
        (fun _ => Except.error (ClientError.transientError "down")) []
        [("bookingId", Value.vStr "b2")]).2.2 = 1 :=
  ⟨by decide,
    exactly_one_store_call
      (fun _ => Except.error (ClientError.transientError "down")) []
      [("bookingId", Value.vStr "b2")] (Value.vStr "b2") (by decide)⟩

/-- C9: the re-raised error delivered to the Orchestrator on a failing
store call always has the default message "Booking cancellation failed"
and default status code 500, and its details field is the entire inner
`BookingCancellationException` object — not the inner error's own details
payload. -/
theorem reraise_wraps_inner_error
    (oracle : Value → Except ClientError (Store × UpdateResult))
    (store : Store) (event : Event) (bid : Value) (err : ClientError)
    (hev : event.lookup "bookingId" = some bid)
    (ho : oracle bid = Except.error err) :
    (lambda_handler_with oracle store event).1 =
      Except.error (HandlerError.cancellation
        ⟨"Booking cancellation failed", 500,
         BCDetails.wrapped "Booking cancellation failed" 500
           (BCDetails.clientError err)⟩)
    ∧ BCDetails.wrapped "Booking cancellation failed" 500
        (BCDetails.clientError err) ≠ BCDetails.clientError err := by
  constructor
  · simp [lambda_handler_with, hev, ho, cancel_booking_with,
      BookingCancellationException.make,
      BookingCancellationException.toDetails, pyOrStr, pyOrNat, pyOrDetails]
  · simp

/-- Witness for C9 at a concrete failing store call. -/
theorem reraise_wraps_inner_error_witness :
    (([("bookingId", Value.vStr "b3")] : Event).lookup "bookingId" =
        some (Value.vStr "b3"))
    ∧ ((fun _ : Value =>
          (Except.error (ClientError.transientError "t") :
            Except ClientError (Store × UpdateResult))) (Value.vStr "b3") =
        Except.error (ClientError.transientError "t"))
    ∧ ((lambda_handler_with
          (fun _ => Except.error (ClientError.transientError "t")) []
          [("bookingId", Value.vStr "b3")]).1 =
        Except.error (HandlerError.cancellation
          ⟨"Booking cancellation failed", 500,
           BCDetails.wrapped "Booking cancellation failed" 500
             (BCDetails.clientError (ClientError.transientError "t"))⟩)
      ∧ BCDetails.wrapped "Booking cancellation failed" 500
          (BCDetails.clientError (ClientError.transientError "t")) ≠
          BCDetails.clientError (ClientError.transientError "t")) :=
  ⟨by decide, rfl,
    reraise_wraps_inner_error
      (fun _ => Except.error (ClientError.transientError "t")) []
      [("bookingId", Value.vStr "b3")] (Value.vStr "b3")
      (ClientError.transientError "t") (by decide) rfl⟩

/-- C10: input validation checks only the presence of the `bookingId` key:
for every event whose `bookingId` is present — empty string, wrong type,
anything — `lambda_handler` proceeds to make the Record Store update call
with that value and never fails with the input-validation error. -/
theorem presence_only_validation
    (oracle : Value → Except ClientError (Store × UpdateResult))
    (store : Store) (event : Event) (bid : Value)
    (hev : event.lookup "bookingId" = some bid) :
    TraceEvent.storeUpdate bid "CANCELLED" ∈
        (lambda_handler_with oracle store event).2.2
    ∧ ∀ m, (lambda_handler_with oracle store event).1 ≠
        Except.error (HandlerError.valueError m) := by
  rcases ho : oracle bid with err | p
  · constructor <;> simp [lambda_handler_with, hev, ho, cancel_booking_with]
  · obtain ⟨store2, ret⟩ := p
    constructor <;> simp [lambda_handler_with, hev, ho, cancel_booking_with]

/-- Witness for C10 at a concrete event whose `bookingId` is the non-string
value null. -/
theorem presence_only_validation_witness :
    (([("bookingId", Value.vNull)] : Event).lookup "bookingId" =
        some Value.vNull)
    ∧ (TraceEvent.storeUpdate Value.vNull "CANCELLED" ∈
        (lambda_handler [] [("bookingId", Value.vNull)]).2.2
      ∧ ∀ m, (lambda_handler [] [("bookingId", Value.vNull)]).1 ≠
          Except.error (HandlerError.valueError m)) :=
  ⟨by decide,
    presence_only_validation (fun bid => updateItem [] bid "CANCELLED") []
      [("bookingId", Value.vNull)] Value.vNull (by decide)⟩

/-- C6 counterexample: on the concrete event with no `bookingId`, the
error raised to the Orchestrator is the input-validation
`ValueError("Invalid booking ID")`, which carries no status-code field at
all — refuting the claim that every outbound error, of both kinds, is a
structured value with a `statusCode` (integer, default 500). -/
theorem outbound_error_missing_statusCode :
    (lambda_handler [] []).1 =
        Except.error (HandlerError.valueError "Invalid booking ID")
    ∧ HandlerError.statusCodeOpt
        (HandlerError.valueError "Invalid booking ID") = none
    ∧ HandlerError.detailsOpt
        (HandlerError.valueError "Invalid booking ID") = none :=
  ⟨rfl, rfl, rfl⟩

/-- C6 amended: every error raised to the Orchestrator is one of two
distinguishable kinds — the input-validation error, which carries only the
message "Invalid booking ID" and no status code or details, or a
cancellation/store failure, a structured value with message string, status
code 500 and a details payload. -/
theorem outbound_error_structure
    (oracle : Value → Except ClientError (Store × UpdateResult))
    (store : Store) (event : Event) (h : HandlerError)
    (herr : (lambda_handler_with oracle store event).1 = Except.error h) :
    (h.isValidation = true ∧ h.msg = "Invalid booking ID"
       ∧ h.statusCodeOpt = none ∧ h.detailsOpt = none)
    ∨ (h.isValidation = false ∧ h.msg = "Booking cancellation failed"
       ∧ h.statusCodeOpt = some 500 ∧ ∃ d, h.detailsOpt = some d) := by
  rcases hl : event.lookup "bookingId" with _ | bid
  · simp [lambda_handler_with, hl] at herr
    subst herr
    left
    simp [HandlerError.isValidation, HandlerError.msg,
      HandlerError.statusCodeOpt, HandlerError.detailsOpt]
  · rcases ho : oracle bid with err | p
    · simp [lambda_handler_with, hl, ho, cancel_booking_with] at herr
      subst herr
      right
      simp [HandlerError.isValidation, HandlerError.msg,
        HandlerError.statusCodeOpt, HandlerError.detailsOpt,
        BookingCancellationException.make,
        BookingCancellationException.toDetails, pyOrStr, pyOrNat,
        pyOrDetails]
    · obtain ⟨store2, ret⟩ := p
      simp [lambda_handler_with, hl, ho, cancel_booking_with] at herr

/-- Witness for the amended C6 at a concrete failing store call. -/
theorem outbound_error_structure_witness :
    ((lambda_handler_with
        (fun _ => Except.error (ClientError.transientError "boom")) []
        [("bookingId", Value.vStr "b4")]).1 =
      Except.error (HandlerError.cancellation
        ⟨"Booking cancellation failed", 500,
         BCDetails.wrapped "Booking cancellation failed" 500
           (BCDetails.clientError (ClientError.transientError "boom"))⟩))
    ∧ (((HandlerError.cancellation
          ⟨"Booking cancellation failed", 500,
           BCDetails.wrapped "Booking cancellation failed" 500
             (BCDetails.clientError
               (ClientError.transientError "boom"))⟩).isValidation = true
        ∧ (HandlerError.cancellation
            ⟨"Booking cancellation failed", 500,
             BCDetails.wrapped "Booking cancellation failed" 500
               (BCDetails.clientError
                 (ClientError.transientError "boom"))⟩).msg =
            "Invalid booking ID"
        ∧ (HandlerError.cancellation
            ⟨"Booking cancellation failed", 500,
             BCDetails.wrapped "Booking cancellation failed" 500
               (BCDetails.clientError
                 (ClientError.transientError "boom"))⟩).statusCodeOpt = none
        ∧ (HandlerError.cancellation
            ⟨"Booking cancellation failed", 500,
             BCDetails.wrapped "Booking cancellation failed" 500
               (BCDetails.clientError
                 (ClientError.transientError "boom"))⟩).detailsOpt = none)
      ∨ ((HandlerError.cancellation
            ⟨"Booking cancellation failed", 500,
             BCDetails.wrapped "Booking cancellation failed" 500
               (BCDetails.clientError
                 (ClientError.transientError "boom"))⟩).isValidation = false
        ∧ (HandlerError.cancellation
            ⟨"Booking cancellation failed", 500,
             BCDetails.wrapped "Booking cancellation failed" 500
               (BCDetails.clientError
                 (ClientError.transientError "boom"))⟩).msg =
            "Booking cancellation failed"
        ∧ (HandlerError.cancellation
            ⟨"Booking cancellation failed", 500,
             BCDetails.wrapped "Booking cancellation failed" 500
               (BCDetails.clientError
                 (ClientError.transientError "boom"))⟩).statusCodeOpt =
            some 500
        ∧ ∃ d, (HandlerError.cancellation
            ⟨"Booking cancellation failed", 500,
             BCDetails.wrapped "Booking cancellation failed" 500
               (BCDetails.clientError
                 (ClientError.transientError "boom"))⟩).detailsOpt =
            some d)) :=
  ⟨rfl,
    outbound_error_structure
      (fun _ => Except.error (ClientError.transientError "boom")) []
      [("bookingId", Value.vStr "b4")]
      (HandlerError.cancellation
        ⟨"Booking cancellation failed", 500,
         BCDetails.wrapped "Booking cancellation failed" 500
           (BCDetails.clientError (ClientError.transientError "boom"))⟩)
      rfl⟩
